import Mathlib

/-!
Shallow embedding of `src/lib/ansible/modules/network/f5/bigip_pool_member.py`.

The module reconciles a single BIG-IP LTM pool member against its desired
configuration.  We embed:

* the string-matching helpers the module uses to classify remote failures
  (`pool_exists`, `member_exists`, `delete_node_address`, src lines 195-238),
* the status post-processing of `get_member_session_status` /
  `get_member_monitor_status` (src lines 357-364, 377-384),
* the whole of `main()` (src lines 387-531) as a pure function `mainRun` from
  the caller parameters and a device state to an outcome, the ordered list
  of remote calls issued, and the device state after the run.

The remote control plane itself (bigsuds / the BIG-IP) is outside the
repository; it appears here as the `Device` state together with the durable
write semantics required by the idempotence law of the spec (spec section 8).
-/

namespace BigIpPoolMember

/-- `containsAux pat s` decides whether `pat` occurs as a contiguous substring
of `s`: the Python test `pat in s`, used by the module at src lines 202, 219, 233. -/
def containsAux (pat : List Char) : List Char → Bool
  | [] => pat.isEmpty
  | c :: rest => pat.isPrefixOf (c :: rest) || containsAux pat rest

/-- Python `pat in s` on strings. -/
def strContains (s pat : String) : Bool :=
  containsAux pat.toList s.toList

/-- Python `str.upper()` (ASCII, as produced by the tokens of this module). -/
def toUpperL (l : List Char) : List Char := l.map Char.toUpper

/-- Python `str.lower()` (ASCII, as produced by the tokens of this module). -/
def toLowerL (l : List Char) : List Char := l.map Char.toLower

/-- Python `str.strip()`. -/
def trimL (l : List Char) : List Char :=
  ((l.dropWhile Char.isWhitespace).reverse.dropWhile Char.isWhitespace).reverse

/-- Scanning a reversed string, return the chars preceding the first
occurrence of the reversed tag (i.e. the suffix after the LAST occurrence of
the tag in the original string), or the whole input when the tag is absent. -/
def lastSegRevAux (rtag : List Char) : List Char → List Char
  | [] => []
  | c :: rest =>
    if rtag.isPrefixOf (c :: rest) then [] else c :: lastSegRevAux rtag rest

/-- Python `s.split(tag)[-1]`: the segment after the last occurrence of `tag`
in `s` (the whole of `s` when `tag` does not occur). -/
def lastSegAfter (tag s : String) : String :=
  String.mk ((lastSegRevAux tag.toList.reverse s.toList.reverse).reverse)

def sessionTag : String := "SESSION_STATUS_"

def monitorTag : String := "MONITOR_STATUS_"

/-- The post-processing of `get_member_session_status` (src lines 357-364):
`result.split("SESSION_STATUS_")[-1].lower()` applied to the raw enumerated
status token returned by the control plane. -/
def get_member_session_status_of (raw : String) : String :=
  String.mk (toLowerL (lastSegAfter sessionTag raw).toList)

/-- The post-processing of `get_member_monitor_status` (src lines 377-384):
`result.split("MONITOR_STATUS_")[-1].lower()`. -/
def get_member_monitor_status_of (raw : String) : String :=
  String.mk (toLowerL (lastSegAfter monitorTag raw).toList)

/-- The token construction shared by `set_member_session_enabled_state`
(src line 349) and `set_member_monitor_state` (src line 369):
`"STATE_%s" % state.strip().upper()`. -/
def stateToken (s : String) : String :=
  "STATE_" ++ String.mk (toUpperL (trimL s.toList))

/-- Result of one remote iControl call: success, or a
`bigsuds.OperationFailed` carrying the server-generated message
(src lines 201, 218, 232). -/
inductive ApiResult (α : Type) where
  | ok (value : α)
  | opFailed (msg : String)

def notFoundPat : String := "was not found"

def stillRefPat : String := "is referenced by a member of pool"

/-- `pool_exists` (src lines 195-207): a status query that succeeds means the
pool exists; an `OperationFailed` whose message contains "was not found" means
it does not; any other `OperationFailed` is re-raised (`Except.error`). -/
def pool_exists (probe : ApiResult Unit) : Except String Bool :=
  match probe with
  | .ok _ => .ok true
  | .opFailed e => if strContains e notFoundPat then .ok false else .error e

/-- `member_exists` (src lines 210-224): same shape as `pool_exists`, keyed on
the member status query. -/
def member_exists (probe : ApiResult Unit) : Except String Bool :=
  match probe with
  | .ok _ => .ok true
  | .opFailed e => if strContains e notFoundPat then .ok false else .error e

/-- `delete_node_address` (src lines 227-238): a successful delete returns
`true`; an `OperationFailed` whose message contains
"is referenced by a member of pool" returns `false`; any other
`OperationFailed` is re-raised. -/
def delete_node_address (r : ApiResult Unit) : Except String Bool :=
  match r with
  | .ok _ => .ok true
  | .opFailed e => if strContains e stillRefPat then .ok false else .error e

def stateEnabledTok : String := "STATE_ENABLED"

def stateDisabledTok : String := "STATE_DISABLED"

def sessionRawEnabled : String := "SESSION_STATUS_ENABLED"

def sessionRawForced : String := "SESSION_STATUS_FORCED_DISABLED"

def monitorRawUp : String := "MONITOR_STATUS_UP"

def monitorRawForced : String := "MONITOR_STATUS_FORCED_DOWN"

def enabledStr : String := "enabled"

def disabledStr : String := "disabled"

def presentStr : String := "present"

def absentStr : String := "absent"

def forcedDisabledStr : String := "forced_disabled"

def forcedDownStr : String := "forced_down"

/-- Live attribute state of the pool member on the control plane.  The two
status fields hold the raw enumerated tokens the iControl API returns (e.g.
"SESSION_STATUS_FORCED_DISABLED"); the module post-processes them with
`get_member_session_status_of` / `get_member_monitor_status_of`.
The field `ratio_weight` models the `ratio` attribute of the module. -/
structure MemberState where
  connection_limit : Int
  description : String
  rate_limit : Int
  ratio_weight : Int
  priority_group : Int
  session_status_raw : String
  monitor_status_raw : String

/-- Modelled from the spec: control-plane defaults a freshly added member gets
(spec section 3: attributes left unset are "control-plane default" on
creation and are never read back unless the caller supplies them, so no claim
depends on the particular values chosen here). -/
def defaultMember : MemberState :=
  ⟨0, "", 0, 1, 0, sessionRawEnabled, monitorRawUp⟩

/-- Modelled from the spec: the durable Remote Resource Client of the
idempotence law (spec section 8): writing session state `STATE_DISABLED`
makes the session status read back as the forced sentinel, and writing
`STATE_ENABLED` makes it read back as a non-forced enabled status.  The
control plane itself is outside the repository. -/
def sessionRawAfterSet (tok old : String) : String :=
  if tok = stateEnabledTok then sessionRawEnabled
  else if tok = stateDisabledTok then sessionRawForced
  else old

/-- Modelled from the spec: durable monitor-state writes, analogous to
`sessionRawAfterSet` with the forced sentinel `MONITOR_STATUS_FORCED_DOWN`. -/
def monitorRawAfterSet (tok old : String) : String :=
  if tok = stateEnabledTok then monitorRawUp
  else if tok = stateDisabledTok then monitorRawForced
  else old

/-- The remote device as seen by one invocation: whether the pool exists,
the member behind the (pool, address, port) key if it exists, and the outcome
the control plane would give to a node-address delete. -/
structure Device where
  poolPresent : Bool
  member : Option MemberState
  nodeDelete : ApiResult Unit

def poolNotFoundMsg : String := "The requested Pool was not found"

def memberNotFoundMsg : String := "The requested Pool Member was not found"

/-- Outcome of the pool status query `get_object_status` issued by
`pool_exists`, derived from the device state. -/
def poolProbeResult (d : Device) : ApiResult Unit :=
  if d.poolPresent then .ok () else .opFailed poolNotFoundMsg

/-- Outcome of the member status query `get_member_object_status` issued by
`member_exists`, derived from the device state. -/
def memberProbeResult (d : Device) : ApiResult Unit :=
  if d.member.isSome then .ok () else .opFailed memberNotFoundMsg

/-- Caller-facing parameters of `main()` (src lines 391-440).  `ratio_weight`
models the `ratio` option of the module; `check_mode` is the Ansible dry-run flag.
`port` is an `Option` so that the validation at src line 442 can be stated;
the argument spec marks both `host` and `port` required. -/
structure Params where
  state : String
  session_state : Option String
  monitor_state : Option String
  pool : String
  host : String
  port : Option Int
  connection_limit : Option Int
  description : Option String
  rate_limit : Option Int
  ratio_weight : Option Int
  preserve_node : Bool
  priority_group : Option Int
  check_mode : Bool

/-- One remote call, as recorded in the trace of the run, in the order issued. -/
inductive ApiCall where
  | getPoolStatus
  | getMemberStatus
  | addMember
  | removeMember
  | deleteNodeAddress
  | getConnectionLimit
  | setConnectionLimit (v : Int)
  | getDescription
  | setDescription (v : String)
  | getRateLimit
  | setRateLimit (v : Int)
  | getRatioWeight
  | setRatioWeight (v : Int)
  | getPriorityGroup
  | setPriorityGroup (v : Int)
  | getSessionStatus
  | setSessionEnabledState (tok : String)
  | getMonitorStatus
  | setMonitorState (tok : String)
deriving DecidableEq

/-- Write (mutating) calls versus read calls. -/
def isWrite : ApiCall → Bool
  | .getPoolStatus => false
  | .getMemberStatus => false
  | .getConnectionLimit => false
  | .getDescription => false
  | .getRateLimit => false
  | .getRatioWeight => false
  | .getPriorityGroup => false
  | .getSessionStatus => false
  | .getMonitorStatus => false
  | .addMember => true
  | .removeMember => true
  | .deleteNodeAddress => true
  | .setConnectionLimit _ => true
  | .setDescription _ => true
  | .setRateLimit _ => true
  | .setRatioWeight _ => true
  | .setPriorityGroup _ => true
  | .setSessionEnabledState _ => true
  | .setMonitorState _ => true

/-- How one invocation ends: `module.fail_json` with a message, or
`module.exit_json(**result)` where `result` is `changed` plus the optional
`deleted` field (src lines 452-531). -/
inductive Outcome where
  | failJson (msg : String)
  | exitJson (changed : Bool) (deleted : Option Bool)

/-- Result of a whole run: the outcome, the ordered remote-call trace, and the
device state after all writes were applied. -/
structure RunOut where
  outcome : Outcome
  calls : List ApiCall
  dev : Device

/-- The uniform get/set interface of one scalar attribute (spec section 4.2): the
trace entries for its get and set, how to read it off the device member, and
the durable write on the device member. -/
structure ScalarAttr (α : Type) where
  getCall : ApiCall
  setCall : α → ApiCall
  read : MemberState → α
  write : α → MemberState → MemberState

def clAttr : ScalarAttr Int :=
  ⟨.getConnectionLimit, .setConnectionLimit,
   fun m => m.connection_limit, fun v m => { m with connection_limit := v }⟩

def descAttr : ScalarAttr String :=
  ⟨.getDescription, .setDescription,
   fun m => m.description, fun v m => { m with description := v }⟩

def rlAttr : ScalarAttr Int :=
  ⟨.getRateLimit, .setRateLimit,
   fun m => m.rate_limit, fun v m => { m with rate_limit := v }⟩

def rwAttr : ScalarAttr Int :=
  ⟨.getRatioWeight, .setRatioWeight,
   fun m => m.ratio_weight, fun v m => { m with ratio_weight := v }⟩

def pgAttr : ScalarAttr Int :=
  ⟨.getPriorityGroup, .setPriorityGroup,
   fun m => m.priority_group, fun v m => { m with priority_group := v }⟩

/-- State threaded through the update path (member exists): the calls issued
so far, the member as mutated by the writes issued so far, and the
accumulated `changed` flag. -/
structure UpdSt where
  calls : List ApiCall
  m : MemberState
  changed : Bool

/-- One scalar attribute of the update path (src lines 487-502, 523-526):
when the attribute is supplied, read the live value, and on mismatch set it
(gated by check mode) and record `changed`. -/
def updScalar {α : Type} [DecidableEq α] (a : ScalarAttr α) (o : Option α)
    (check : Bool) (s : UpdSt) : UpdSt :=
  match o with
  | none => s
  | some v =>
    let calls := s.calls ++ [a.getCall]
    if v ≠ a.read s.m then
      if check then ⟨calls, s.m, true⟩
      else ⟨calls ++ [a.setCall v], a.write v s.m, true⟩
    else ⟨calls, s.m, s.changed⟩

/-- Durable effect of `set_member_session_enabled_state` on the member. -/
def sessionWrite (ss : String) (mm : MemberState) : MemberState :=
  { mm with session_status_raw :=
      sessionRawAfterSet (stateToken ss) mm.session_status_raw }

/-- Durable effect of `set_member_monitor_state` on the member. -/
def monitorWrite (ms : String) (mm : MemberState) : MemberState :=
  { mm with monitor_status_raw :=
      monitorRawAfterSet (stateToken ms) mm.monitor_status_raw }

/-- Session-state arm of the update path (src lines 503-512): read the live
session status; intent `enabled` writes only when the status equals the
forced sentinel, intent `disabled` writes whenever it does not. -/
def updSession (o : Option String) (check : Bool) (s : UpdSt) : UpdSt :=
  match o with
  | none => s
  | some ss =>
    let calls := s.calls ++ [ApiCall.getSessionStatus]
    let status := get_member_session_status_of s.m.session_status_raw
    if ss = enabledStr ∧ status = forcedDisabledStr then
      if check then ⟨calls, s.m, true⟩
      else ⟨calls ++ [ApiCall.setSessionEnabledState (stateToken ss)],
            sessionWrite ss s.m, true⟩
    else if ss = disabledStr ∧ status ≠ forcedDisabledStr then
      if check then ⟨calls, s.m, true⟩
      else ⟨calls ++ [ApiCall.setSessionEnabledState (stateToken ss)],
            sessionWrite ss s.m, true⟩
    else ⟨calls, s.m, s.changed⟩

/-- Monitor-state arm of the update path (src lines 513-522), with the forced
sentinel `forced_down`. -/
def updMonitor (o : Option String) (check : Bool) (s : UpdSt) : UpdSt :=
  match o with
  | none => s
  | some ms =>
    let calls := s.calls ++ [ApiCall.getMonitorStatus]
    let status := get_member_monitor_status_of s.m.monitor_status_raw
    if ms = enabledStr ∧ status = forcedDownStr then
      if check then ⟨calls, s.m, true⟩
      else ⟨calls ++ [ApiCall.setMonitorState (stateToken ms)],
            monitorWrite ms s.m, true⟩
    else if ms = disabledStr ∧ status ≠ forcedDownStr then
      if check then ⟨calls, s.m, true⟩
      else ⟨calls ++ [ApiCall.setMonitorState (stateToken ms)],
            monitorWrite ms s.m, true⟩
    else ⟨calls, s.m, s.changed⟩

/-- The whole update path (member exists; src lines 486-526), in source
order: connection limit, description, rate limit, ratio, session state,
monitor state, priority group. -/
def updateBranch (p : Params) (m : MemberState) : UpdSt :=
  let s0 : UpdSt := ⟨[], m, false⟩
  let s1 := updScalar clAttr p.connection_limit p.check_mode s0
  let s2 := updScalar descAttr p.description p.check_mode s1
  let s3 := updScalar rlAttr p.rate_limit p.check_mode s2
  let s4 := updScalar rwAttr p.ratio_weight p.check_mode s3
  let s5 := updSession p.session_state p.check_mode s4
  let s6 := updMonitor p.monitor_state p.check_mode s5
  updScalar pgAttr p.priority_group p.check_mode s6

/-- The trace contribution of one optionally supplied attribute. -/
def optCall {α : Type} (o : Option α) (f : α → ApiCall) : List ApiCall :=
  match o with
  | none => []
  | some v => [f v]

/-- Set calls of the creation path (src lines 470-483): every supplied
attribute is written unconditionally after `add_pool_member`, in source
order. -/
def creationSetCalls (p : Params) : List ApiCall :=
  optCall p.connection_limit ApiCall.setConnectionLimit ++
  optCall p.description ApiCall.setDescription ++
  optCall p.rate_limit ApiCall.setRateLimit ++
  optCall p.ratio_weight ApiCall.setRatioWeight ++
  optCall p.session_state (fun ss => ApiCall.setSessionEnabledState (stateToken ss)) ++
  optCall p.monitor_state (fun ms => ApiCall.setMonitorState (stateToken ms)) ++
  optCall p.priority_group ApiCall.setPriorityGroup

/-- Apply one optionally supplied write to the member. -/
def optWrite {α : Type} (o : Option α) (w : α → MemberState → MemberState)
    (m : MemberState) : MemberState :=
  match o with
  | none => m
  | some v => w v m

/-- The member state after the writes of the creation path (durable-client
semantics applied, in source order, to the control-plane default member). -/
def creationMember (p : Params) : MemberState :=
  let m0 := defaultMember
  let m1 := optWrite p.connection_limit clAttr.write m0
  let m2 := optWrite p.description descAttr.write m1
  let m3 := optWrite p.rate_limit rlAttr.write m2
  let m4 := optWrite p.ratio_weight rwAttr.write m3
  let m5 := optWrite p.session_state sessionWrite m4
  let m6 := optWrite p.monitor_state monitorWrite m5
  optWrite p.priority_group pgAttr.write m6

/-- Validation at src line 442:
`(host and port is None) or (port is not None and not host)`. -/
def hostPortMissing (p : Params) : Bool :=
  (decide (p.host ≠ "") && decide (p.port = none)) ||
  (decide (p.port ≠ none) && decide (p.host = ""))

/-- Validation at src line 445: `0 > port or port > 65535`.  The `none` case
follows the Python 2 ordering (`0 > None` is true); it is unreachable through
the argument spec, which marks `port` required. -/
def portInvalid (p : Params) : Bool :=
  match p.port with
  | none => true
  | some v => decide (0 > v) || decide (v > 65535)

/-- Both validation gates at src lines 442-446 pass. -/
def paramsValid (p : Params) : Bool :=
  !(hostPortMissing p) && !(portInvalid p)

def hostPortMsg : String := "both host and port must be supplied"

def portRangeMsg : String := "valid ports must be in range 0 - 65535"

def receivedExcPre : String := "received exception: "

/-- Message of the fatal failure at src line 451 (the `fqdn_name` partition
prefixing of the pool name lives in module_utils, outside this repository,
and is irrelevant to every claim). -/
def poolMissingMsg (pool : String) : String :=
  "pool " ++ pool ++ " does not exist"

/-- `main()` from src line 452 on, after the pool was found to exist.  The
member existence probes are derived from the device state; the lemma
`member_exists_probe` below connects this branching to the `member_exists`
helper.  Each branch records the exact ordered call trace and the device
state after its writes. -/
def mainAfterPool (p : Params) (d : Device) : RunOut :=
  if p.state = absentStr then
    match d.member with
    | none =>
      ⟨.exitJson false none, [ApiCall.getPoolStatus, ApiCall.getMemberStatus], d⟩
    | some _ =>
      if p.check_mode then
        ⟨.exitJson true none, [ApiCall.getPoolStatus, ApiCall.getMemberStatus], d⟩
      else
        let d2 : Device := { d with member := none }
        if p.preserve_node then
          ⟨.exitJson true none,
           [ApiCall.getPoolStatus, ApiCall.getMemberStatus, ApiCall.removeMember], d2⟩
        else
          match delete_node_address d.nodeDelete with
          | .ok deleted =>
            ⟨.exitJson true (some deleted),
             [ApiCall.getPoolStatus, ApiCall.getMemberStatus, ApiCall.removeMember,
              ApiCall.deleteNodeAddress], d2⟩
          | .error e =>
            ⟨.failJson (receivedExcPre ++ e),
             [ApiCall.getPoolStatus, ApiCall.getMemberStatus, ApiCall.removeMember,
              ApiCall.deleteNodeAddress], d2⟩
  else if p.state = presentStr then
    match d.member with
    | none =>
      if p.check_mode then
        ⟨.exitJson true none, [ApiCall.getPoolStatus, ApiCall.getMemberStatus], d⟩
      else
        ⟨.exitJson true none,
         [ApiCall.getPoolStatus, ApiCall.getMemberStatus, ApiCall.addMember] ++
           creationSetCalls p,
         { d with member := some (creationMember p) }⟩
    | some m =>
      let st := updateBranch p m
      ⟨.exitJson st.changed none,
       [ApiCall.getPoolStatus, ApiCall.getMemberStatus] ++ st.calls,
       { d with member := some st.m }⟩
  else
    ⟨.exitJson false none, [ApiCall.getPoolStatus], d⟩

/-- The whole of `main()` (src lines 387-531): the two validation gates, the
pool existence probe (the lemma `pool_exists_probe` connects the branching to
the `pool_exists` helper), then the state branches. -/
def mainRun (p : Params) (d : Device) : RunOut :=
  if hostPortMissing p then ⟨.failJson hostPortMsg, [], d⟩
  else if portInvalid p then ⟨.failJson portRangeMsg, [], d⟩
  else if d.poolPresent then mainAfterPool p d
  else ⟨.failJson (poolMissingMsg p.pool), [ApiCall.getPoolStatus], d⟩

/-- The post-processed live session status of a member (what the update path
compares against the forced sentinel). -/
def sessionStatusOf (m : MemberState) : String :=
  get_member_session_status_of m.session_status_raw

/-- The post-processed live monitor status of a member. -/
def monitorStatusOf (m : MemberState) : String :=
  get_member_monitor_status_of m.monitor_status_raw

/-- Whether the update path deems one scalar attribute out of sync (supplied
and different from the live value). -/
def condScalar {α : Type} [DecidableEq α] (a : ScalarAttr α) (o : Option α)
    (m : MemberState) : Bool :=
  match o with
  | none => false
  | some v => decide (v ≠ a.read m)

/-- Whether the update path deems the session state out of sync: intent
`enabled` against the forced sentinel, or intent `disabled` against anything
else (src lines 505, 509). -/
def condSess (o : Option String) (m : MemberState) : Bool :=
  match o with
  | none => false
  | some ss =>
    decide ((ss = enabledStr ∧ sessionStatusOf m = forcedDisabledStr) ∨
            (ss = disabledStr ∧ sessionStatusOf m ≠ forcedDisabledStr))

/-- Whether the update path deems the monitor state out of sync
(src lines 515, 519). -/
def condMon (o : Option String) (m : MemberState) : Bool :=
  match o with
  | none => false
  | some ms =>
    decide ((ms = enabledStr ∧ monitorStatusOf m = forcedDownStr) ∨
            (ms = disabledStr ∧ monitorStatusOf m ≠ forcedDownStr))

/-- Combined out-of-sync test of the update path: `changed` is the OR of the
seven per-attribute diff outcomes (spec section 4.5). -/
def condAll (p : Params) (m : MemberState) : Bool :=
  condScalar clAttr p.connection_limit m ||
  condScalar descAttr p.description m ||
  condScalar rlAttr p.rate_limit m ||
  condScalar rwAttr p.ratio_weight m ||
  condSess p.session_state m ||
  condMon p.monitor_state m ||
  condScalar pgAttr p.priority_group m

/-! ## Concrete fixtures used by the witness theorems -/

def stillRefMsgW : String :=
  "node 10.10.10.10 is referenced by a member of pool other-pool"

def otherFailMsg : String := "connection reset by peer"

def probeFailMsg : String := "The requested object was not found"

/-- A member whose two live statuses are the forced sentinels. -/
def memForced : MemberState :=
  ⟨0, "", 0, 1, 0, sessionRawForced, monitorRawForced⟩

/-- A member in the plain enabled/up live state. -/
def memPlain : MemberState :=
  ⟨0, "", 0, 1, 0, sessionRawEnabled, monitorRawUp⟩

def devEmpty : Device := ⟨true, none, ApiResult.ok ()⟩

def devMemForced : Device := ⟨true, some memForced, ApiResult.ok ()⟩

def devMemPlain : Device := ⟨true, some memPlain, ApiResult.ok ()⟩

def devNoPool : Device := ⟨false, none, ApiResult.ok ()⟩

def devMemStillRef : Device := ⟨true, some memPlain, ApiResult.opFailed stillRefMsgW⟩

def devMemBadDelete : Device := ⟨true, some memPlain, ApiResult.opFailed otherFailMsg⟩

/-- Baseline parameters: state=present, pool and host/port set, nothing else
supplied, no dry-run. -/
def paramsBase : Params :=
  ⟨presentStr, none, none, "my-pool", "10.1.1.1", some 80,
   none, none, none, none, false, none, false⟩

/-- Creation-path parameters: like `paramsBase` but supplying a connection
limit of 100 and admission intent disabled. -/
def paramsCreate : Params :=
  ⟨presentStr, some disabledStr, none, "my-pool", "10.1.1.1", some 80,
   some 100, none, none, none, false, none, false⟩

/-- Parameters supplying both composite-state intents as enabled. -/
def paramsStates : Params :=
  ⟨presentStr, some enabledStr, some enabledStr, "my-pool", "10.1.1.1",
   some 80, none, none, none, none, false, none, false⟩

/-! ## Glue lemmas: probes derived from the device state -/

/-- On the derived pool probe, `pool_exists` returns exactly the pool-existence
bit of the device, and never re-raises. -/
theorem pool_exists_probe (d : Device) :
    pool_exists (poolProbeResult d) = .ok d.poolPresent := by
  rcases d with ⟨pp, mem, nd⟩
  cases pp <;> rfl

/-- On the derived member probe, `member_exists` returns exactly whether the
device holds the member, and never re-raises. -/
theorem member_exists_probe (d : Device) :
    member_exists (memberProbeResult d) = .ok d.member.isSome := by
  rcases d with ⟨pp, mem, nd⟩
  cases mem <;> rfl

/-! ## Concrete string computations -/

theorem stateToken_enabled : stateToken enabledStr = stateEnabledTok := rfl

theorem stateToken_disabled : stateToken disabledStr = stateDisabledTok := rfl

theorem sessionStatus_of_enabledRaw :
    get_member_session_status_of sessionRawEnabled = enabledStr := rfl

theorem sessionStatus_of_forcedRaw :
    get_member_session_status_of sessionRawForced = forcedDisabledStr := rfl

theorem monitorStatus_of_upRaw :
    get_member_monitor_status_of monitorRawUp = "up" := rfl

theorem monitorStatus_of_forcedRaw :
    get_member_monitor_status_of monitorRawForced = forcedDownStr := rfl

theorem sessionWrite_enabled_status (mm : MemberState) :
    sessionStatusOf (sessionWrite enabledStr mm) = enabledStr := rfl

theorem sessionWrite_disabled_status (mm : MemberState) :
    sessionStatusOf (sessionWrite disabledStr mm) = forcedDisabledStr := rfl

theorem monitorWrite_enabled_status (mm : MemberState) :
    monitorStatusOf (monitorWrite enabledStr mm) = "up" := rfl

theorem monitorWrite_disabled_status (mm : MemberState) :
    monitorStatusOf (monitorWrite disabledStr mm) = forcedDownStr := rfl

/-! ## Generic lemmas about one scalar step of the update path -/

theorem updScalar_changed {α : Type} [DecidableEq α] (a : ScalarAttr α)
    (o : Option α) (check : Bool) (s : UpdSt) :
    (updScalar a o check s).changed = (s.changed || condScalar a o s.m) := by
  rcases o with _ | v
  · simp [updScalar, condScalar]
  · simp only [updScalar, condScalar]
    split_ifs with h1 h2 <;> simp [h1]

theorem updScalar_m_keep {α β : Type} [DecidableEq α] (a : ScalarAttr α)
    (o : Option α) (check : Bool) (s : UpdSt) (proj : MemberState → β)
    (hw : ∀ v mm, proj (a.write v mm) = proj mm) :
    proj (updScalar a o check s).m = proj s.m := by
  rcases o with _ | v
  · rfl
  · simp only [updScalar]
    split_ifs <;> simp [hw]

theorem updScalar_m_check {α : Type} [DecidableEq α] (a : ScalarAttr α)
    (o : Option α) (s : UpdSt) :
    (updScalar a o true s).m = s.m := by
  rcases o with _ | v
  · rfl
  · simp only [updScalar]
    split_ifs <;> rfl

theorem updScalar_cond_after {α : Type} [DecidableEq α] (a : ScalarAttr α)
    (o : Option α) (s : UpdSt) (hrw : ∀ v mm, a.read (a.write v mm) = v) :
    condScalar a o (updScalar a o false s).m = false := by
  rcases o with _ | v
  · rfl
  · simp only [updScalar, condScalar]
    split_ifs with h1 hf
    · simp at hf
    · simp [hrw]
    · simp
      exact not_not.mp h1

theorem updScalar_mem {α : Type} [DecidableEq α] (a : ScalarAttr α)
    (o : Option α) (check : Bool) (s : UpdSt) (c : ApiCall)
    (hg : c ≠ a.getCall) (hs : ∀ v, c ≠ a.setCall v) :
    (c ∈ (updScalar a o check s).calls) ↔ c ∈ s.calls := by
  rcases o with _ | v
  · exact Iff.rfl
  · simp only [updScalar]
    split_ifs <;> simp [hg, hs]

theorem updScalar_calls_check {α : Type} [DecidableEq α] (a : ScalarAttr α)
    (o : Option α) (s : UpdSt) :
    ∀ c, c ∈ (updScalar a o true s).calls → c ∈ s.calls ∨ c = a.getCall := by
  rcases o with _ | v
  · exact fun c hc => Or.inl hc
  · simp only [updScalar]
    split_ifs <;> intro c hc <;> simp at hc <;> tauto

theorem condScalar_congr {α : Type} [DecidableEq α] (a : ScalarAttr α)
    (o : Option α) {m1 m2 : MemberState} (h : a.read m1 = a.read m2) :
    condScalar a o m1 = condScalar a o m2 := by
  rcases o with _ | v <;> simp [condScalar, h]

/-! ## Lemmas about the session and monitor steps of the update path -/

theorem condSess_congr (o : Option String) {m1 m2 : MemberState}
    (h : m1.session_status_raw = m2.session_status_raw) :
    condSess o m1 = condSess o m2 := by
  rcases o with _ | ss <;> simp [condSess, sessionStatusOf, h]

theorem condMon_congr (o : Option String) {m1 m2 : MemberState}
    (h : m1.monitor_status_raw = m2.monitor_status_raw) :
    condMon o m1 = condMon o m2 := by
  rcases o with _ | ms <;> simp [condMon, monitorStatusOf, h]

theorem updSession_changed (o : Option String) (check : Bool) (s : UpdSt) :
    (updSession o check s).changed = (s.changed || condSess o s.m) := by
  rcases o with _ | ss
  · simp [updSession, condSess]
  · simp only [updSession, condSess, sessionStatusOf]
    split_ifs with h1 h2 h3 h4 <;> simp_all

theorem updSession_m_keep {β : Type} (o : Option String) (check : Bool)
    (s : UpdSt) (proj : MemberState → β)
    (hw : ∀ ss mm, proj (sessionWrite ss mm) = proj mm) :
    proj (updSession o check s).m = proj s.m := by
  rcases o with _ | ss
  · rfl
  · simp only [updSession]
    split_ifs <;> simp [hw]

theorem updSession_m_check (o : Option String) (s : UpdSt) :
    (updSession o true s).m = s.m := by
  rcases o with _ | ss
  · rfl
  · simp only [updSession]
    split_ifs <;> rfl

/-- After a durable session-state write for intent `ss`, the intent `ss` is
no longer deemed out of sync. -/
theorem condSess_after_set (ss : String) (mm : MemberState) :
    condSess (some ss) (sessionWrite ss mm) = false := by
  by_cases h1 : ss = enabledStr
  · subst h1
    simp [condSess, sessionWrite_enabled_status]
    decide
  · by_cases h2 : ss = disabledStr
    · subst h2
      simp [condSess, sessionWrite_disabled_status]
      decide
    · simp [condSess, h1, h2]

theorem updSession_cond_after (o : Option String) (s : UpdSt) :
    condSess o (updSession o false s).m = false := by
  rcases o with _ | ss
  · rfl
  · simp only [updSession]
    split_ifs with h1 hf h2 hf2
    · simp at hf
    · exact condSess_after_set ss s.m
    · simp at hf2
    · exact condSess_after_set ss s.m
    · simp [condSess, sessionStatusOf]
      push_neg at h1 h2
      constructor
      · intro he
        exact h1 he
      · intro hd
        exact h2 hd

theorem updSession_mem (o : Option String) (check : Bool) (s : UpdSt)
    (c : ApiCall) (hg : c ≠ ApiCall.getSessionStatus)
    (hs : ∀ t, c ≠ ApiCall.setSessionEnabledState t) :
    (c ∈ (updSession o check s).calls) ↔ c ∈ s.calls := by
  rcases o with _ | ss
  · exact Iff.rfl
  · simp only [updSession]
    split_ifs <;> simp [hg, hs]

theorem updSession_calls_check (o : Option String) (s : UpdSt) :
    ∀ c, c ∈ (updSession o true s).calls →
      c ∈ s.calls ∨ c = ApiCall.getSessionStatus := by
  rcases o with _ | ss
  · exact fun c hc => Or.inl hc
  · simp only [updSession]
    split_ifs <;> intro c hc <;> simp at hc <;> tauto

/-- The session set-call for the supplied intent appears in the output of the
session step exactly when the intent is deemed out of sync (no dry-run). -/
theorem updSession_set_mem (ss : String) (s : UpdSt)
    (h0 : ∀ t, ApiCall.setSessionEnabledState t ∉ s.calls) :
    (ApiCall.setSessionEnabledState (stateToken ss) ∈
        (updSession (some ss) false s).calls) ↔
      condSess (some ss) s.m = true := by
  simp only [updSession, condSess, sessionStatusOf]
  split_ifs with h1 hf h2 hf2 <;> simp_all

theorem updMonitor_changed (o : Option String) (check : Bool) (s : UpdSt) :
    (updMonitor o check s).changed = (s.changed || condMon o s.m) := by
  rcases o with _ | ms
  · simp [updMonitor, condMon]
  · simp only [updMonitor, condMon, monitorStatusOf]
    split_ifs with h1 h2 h3 h4 <;> simp_all

theorem updMonitor_m_keep {β : Type} (o : Option String) (check : Bool)
    (s : UpdSt) (proj : MemberState → β)
    (hw : ∀ ms mm, proj (monitorWrite ms mm) = proj mm) :
    proj (updMonitor o check s).m = proj s.m := by
  rcases o with _ | ms
  · rfl
  · simp only [updMonitor]
    split_ifs <;> simp [hw]

theorem updMonitor_m_check (o : Option String) (s : UpdSt) :
    (updMonitor o true s).m = s.m := by
  rcases o with _ | ms
  · rfl
  · simp only [updMonitor]
    split_ifs <;> rfl

/-- After a durable monitor-state write for intent `ms`, the intent `ms` is
no longer deemed out of sync. -/
theorem condMon_after_set (ms : String) (mm : MemberState) :
    condMon (some ms) (monitorWrite ms mm) = false := by
  by_cases h1 : ms = enabledStr
  · subst h1
    simp [condMon, monitorWrite_enabled_status]
    decide
  · by_cases h2 : ms = disabledStr
    · subst h2
      simp [condMon, monitorWrite_disabled_status]
      decide
    · simp [condMon, h1, h2]

theorem updMonitor_cond_after (o : Option String) (s : UpdSt) :
    condMon o (updMonitor o false s).m = false := by
  rcases o with _ | ms
  · rfl
  · simp only [updMonitor]
    split_ifs with h1 hf h2 hf2
    · simp at hf
    · exact condMon_after_set ms s.m
    · simp at hf2
    · exact condMon_after_set ms s.m
    · simp [condMon, monitorStatusOf]
      push_neg at h1 h2
      constructor
      · intro he
        exact h1 he
      · intro hd
        exact h2 hd

theorem updMonitor_mem (o : Option String) (check : Bool) (s : UpdSt)
    (c : ApiCall) (hg : c ≠ ApiCall.getMonitorStatus)
    (hs : ∀ t, c ≠ ApiCall.setMonitorState t) :
    (c ∈ (updMonitor o check s).calls) ↔ c ∈ s.calls := by
  rcases o with _ | ms
  · exact Iff.rfl
  · simp only [updMonitor]
    split_ifs <;> simp [hg, hs]

theorem updMonitor_calls_check (o : Option String) (s : UpdSt) :
    ∀ c, c ∈ (updMonitor o true s).calls →
      c ∈ s.calls ∨ c = ApiCall.getMonitorStatus := by
  rcases o with _ | ms
  · exact fun c hc => Or.inl hc
  · simp only [updMonitor]
    split_ifs <;> intro c hc <;> simp at hc <;> tauto

/-- The monitor set-call for the supplied intent appears in the output of the
monitor step exactly when the intent is deemed out of sync (no dry-run). -/
theorem updMonitor_set_mem (ms : String) (s : UpdSt)
    (h0 : ∀ t, ApiCall.setMonitorState t ∉ s.calls) :
    (ApiCall.setMonitorState (stateToken ms) ∈
        (updMonitor (some ms) false s).calls) ↔
      condMon (some ms) s.m = true := by
  simp only [updMonitor, condMon, monitorStatusOf]
  split_ifs with h1 hf h2 hf2 <;> simp_all

/-! ## The update path as a whole -/

theorem updateBranch_eq (p : Params) (m : MemberState) :
    updateBranch p m =
      updScalar pgAttr p.priority_group p.check_mode
        (updMonitor p.monitor_state p.check_mode
          (updSession p.session_state p.check_mode
            (updScalar rwAttr p.ratio_weight p.check_mode
              (updScalar rlAttr p.rate_limit p.check_mode
                (updScalar descAttr p.description p.check_mode
                  (updScalar clAttr p.connection_limit p.check_mode
                    ⟨[], m, false⟩)))))) := rfl

/-- The `changed` flag of the update path is the OR of the seven per-attribute
diff outcomes, each evaluated against the live member state at entry. -/
theorem updateBranch_changed (p : Params) (m : MemberState) :
    (updateBranch p m).changed = condAll p m := by
  rw [updateBranch_eq]
  set s1 := updScalar clAttr p.connection_limit p.check_mode ⟨[], m, false⟩ with hs1
  set s2 := updScalar descAttr p.description p.check_mode s1 with hs2
  set s3 := updScalar rlAttr p.rate_limit p.check_mode s2 with hs3
  set s4 := updScalar rwAttr p.ratio_weight p.check_mode s3 with hs4
  set s5 := updSession p.session_state p.check_mode s4 with hs5
  set s6 := updMonitor p.monitor_state p.check_mode s5 with hs6
  have hd1 : descAttr.read s1.m = descAttr.read m := by
    rw [hs1]
    exact updScalar_m_keep clAttr _ _ _ _ (fun v mm => rfl)
  have hrl1 : rlAttr.read s1.m = rlAttr.read m := by
    rw [hs1]
    exact updScalar_m_keep clAttr _ _ _ _ (fun v mm => rfl)
  have hrl2 : rlAttr.read s2.m = rlAttr.read m := by
    rw [hs2, updScalar_m_keep descAttr _ _ _ rlAttr.read (fun v mm => rfl)]
    exact hrl1
  have hrw1 : rwAttr.read s1.m = rwAttr.read m := by
    rw [hs1]
    exact updScalar_m_keep clAttr _ _ _ _ (fun v mm => rfl)
  have hrw2 : rwAttr.read s2.m = rwAttr.read m := by
    rw [hs2, updScalar_m_keep descAttr _ _ _ rwAttr.read (fun v mm => rfl)]
    exact hrw1
  have hrw3 : rwAttr.read s3.m = rwAttr.read m := by
    rw [hs3, updScalar_m_keep rlAttr _ _ _ rwAttr.read (fun v mm => rfl)]
    exact hrw2
  have hsr1 : s1.m.session_status_raw = m.session_status_raw := by
    rw [hs1]
    exact updScalar_m_keep clAttr _ _ _ _ (fun v mm => rfl)
  have hsr2 : s2.m.session_status_raw = m.session_status_raw := by
    rw [hs2, updScalar_m_keep descAttr _ _ _ (fun mm => mm.session_status_raw)
      (fun v mm => rfl)]
    exact hsr1
  have hsr3 : s3.m.session_status_raw = m.session_status_raw := by
    rw [hs3, updScalar_m_keep rlAttr _ _ _ (fun mm => mm.session_status_raw)
      (fun v mm => rfl)]
    exact hsr2
  have hsr4 : s4.m.session_status_raw = m.session_status_raw := by
    rw [hs4, updScalar_m_keep rwAttr _ _ _ (fun mm => mm.session_status_raw)
      (fun v mm => rfl)]
    exact hsr3
  have hmr1 : s1.m.monitor_status_raw = m.monitor_status_raw := by
    rw [hs1]
    exact updScalar_m_keep clAttr _ _ _ _ (fun v mm => rfl)
  have hmr2 : s2.m.monitor_status_raw = m.monitor_status_raw := by
    rw [hs2, updScalar_m_keep descAttr _ _ _ (fun mm => mm.monitor_status_raw)
      (fun v mm => rfl)]
    exact hmr1
  have hmr3 : s3.m.monitor_status_raw = m.monitor_status_raw := by
    rw [hs3, updScalar_m_keep rlAttr _ _ _ (fun mm => mm.monitor_status_raw)
      (fun v mm => rfl)]
    exact hmr2
  have hmr4 : s4.m.monitor_status_raw = m.monitor_status_raw := by
    rw [hs4, updScalar_m_keep rwAttr _ _ _ (fun mm => mm.monitor_status_raw)
      (fun v mm => rfl)]
    exact hmr3
  have hmr5 : s5.m.monitor_status_raw = m.monitor_status_raw := by
    rw [hs5, updSession_m_keep _ _ _ (fun mm => mm.monitor_status_raw)
      (fun ss mm => rfl)]
    exact hmr4
  have hpg1 : pgAttr.read s1.m = pgAttr.read m := by
    rw [hs1]
    exact updScalar_m_keep clAttr _ _ _ _ (fun v mm => rfl)
  have hpg2 : pgAttr.read s2.m = pgAttr.read m := by
    rw [hs2, updScalar_m_keep descAttr _ _ _ pgAttr.read (fun v mm => rfl)]
    exact hpg1
  have hpg3 : pgAttr.read s3.m = pgAttr.read m := by
    rw [hs3, updScalar_m_keep rlAttr _ _ _ pgAttr.read (fun v mm => rfl)]
    exact hpg2
  have hpg4 : pgAttr.read s4.m = pgAttr.read m := by
    rw [hs4, updScalar_m_keep rwAttr _ _ _ pgAttr.read (fun v mm => rfl)]
    exact hpg3
  have hpg5 : pgAttr.read s5.m = pgAttr.read m := by
    rw [hs5, updSession_m_keep _ _ _ pgAttr.read (fun ss mm => rfl)]
    exact hpg4
  have hpg6 : pgAttr.read s6.m = pgAttr.read m := by
    rw [hs6, updMonitor_m_keep _ _ _ pgAttr.read (fun ms mm => rfl)]
    exact hpg5
  rw [updScalar_changed pgAttr, condScalar_congr pgAttr p.priority_group hpg6]
  rw [hs6, updMonitor_changed, condMon_congr p.monitor_state hmr5]
  rw [hs5, updSession_changed, condSess_congr p.session_state hsr4]
  rw [hs4, updScalar_changed rwAttr, condScalar_congr rwAttr p.ratio_weight hrw3]
  rw [hs3, updScalar_changed rlAttr, condScalar_congr rlAttr p.rate_limit hrl2]
  rw [hs2, updScalar_changed descAttr, condScalar_congr descAttr p.description hd1]
  rw [hs1, updScalar_changed clAttr]
  simp [condAll, Bool.or_assoc]

/-- After a real (non-dry-run) pass of the update path, no supplied attribute
is still deemed out of sync (durable-client semantics). -/
theorem updateBranch_cond_after (p : Params) (m : MemberState)
    (hck : p.check_mode = false) :
    condAll p ((updateBranch p m).m) = false := by
  rw [updateBranch_eq, hck]
  set s1 := updScalar clAttr p.connection_limit false ⟨[], m, false⟩ with hs1
  set s2 := updScalar descAttr p.description false s1 with hs2
  set s3 := updScalar rlAttr p.rate_limit false s2 with hs3
  set s4 := updScalar rwAttr p.ratio_weight false s3 with hs4
  set s5 := updSession p.session_state false s4 with hs5
  set s6 := updMonitor p.monitor_state false s5 with hs6
  set s7 := updScalar pgAttr p.priority_group false s6 with hs7
  have f1 : clAttr.read s7.m = clAttr.read s1.m := by
    rw [hs7, updScalar_m_keep pgAttr _ _ _ clAttr.read (fun v mm => rfl),
        hs6, updMonitor_m_keep _ _ _ clAttr.read (fun ms mm => rfl),
        hs5, updSession_m_keep _ _ _ clAttr.read (fun ss mm => rfl),
        hs4, updScalar_m_keep rwAttr _ _ _ clAttr.read (fun v mm => rfl),
        hs3, updScalar_m_keep rlAttr _ _ _ clAttr.read (fun v mm => rfl),
        hs2, updScalar_m_keep descAttr _ _ _ clAttr.read (fun v mm => rfl)]
  have f2 : descAttr.read s7.m = descAttr.read s2.m := by
    rw [hs7, updScalar_m_keep pgAttr _ _ _ descAttr.read (fun v mm => rfl),
        hs6, updMonitor_m_keep _ _ _ descAttr.read (fun ms mm => rfl),
        hs5, updSession_m_keep _ _ _ descAttr.read (fun ss mm => rfl),
        hs4, updScalar_m_keep rwAttr _ _ _ descAttr.read (fun v mm => rfl),
        hs3, updScalar_m_keep rlAttr _ _ _ descAttr.read (fun v mm => rfl)]
  have f3 : rlAttr.read s7.m = rlAttr.read s3.m := by
    rw [hs7, updScalar_m_keep pgAttr _ _ _ rlAttr.read (fun v mm => rfl),
        hs6, updMonitor_m_keep _ _ _ rlAttr.read (fun ms mm => rfl),
        hs5, updSession_m_keep _ _ _ rlAttr.read (fun ss mm => rfl),
        hs4, updScalar_m_keep rwAttr _ _ _ rlAttr.read (fun v mm => rfl)]
  have f4 : rwAttr.read s7.m = rwAttr.read s4.m := by
    rw [hs7, updScalar_m_keep pgAttr _ _ _ rwAttr.read (fun v mm => rfl),
        hs6, updMonitor_m_keep _ _ _ rwAttr.read (fun ms mm => rfl),
        hs5, updSession_m_keep _ _ _ rwAttr.read (fun ss mm => rfl)]
  have f5 : s7.m.session_status_raw = s5.m.session_status_raw := by
    rw [hs7, updScalar_m_keep pgAttr _ _ _ (fun mm => mm.session_status_raw)
          (fun v mm => rfl),
        hs6, updMonitor_m_keep _ _ _ (fun mm => mm.session_status_raw)
          (fun ms mm => rfl)]
  have f6 : s7.m.monitor_status_raw = s6.m.monitor_status_raw := by
    rw [hs7, updScalar_m_keep pgAttr _ _ _ (fun mm => mm.monitor_status_raw)
          (fun v mm => rfl)]
  have c1 : condScalar clAttr p.connection_limit s7.m = false := by
    rw [condScalar_congr clAttr p.connection_limit f1, hs1]
    exact updScalar_cond_after clAttr _ _ (fun v mm => rfl)
  have c2 : condScalar descAttr p.description s7.m = false := by
    rw [condScalar_congr descAttr p.description f2, hs2]
    exact updScalar_cond_after descAttr _ _ (fun v mm => rfl)
  have c3 : condScalar rlAttr p.rate_limit s7.m = false := by
    rw [condScalar_congr rlAttr p.rate_limit f3, hs3]
    exact updScalar_cond_after rlAttr _ _ (fun v mm => rfl)
  have c4 : condScalar rwAttr p.ratio_weight s7.m = false := by
    rw [condScalar_congr rwAttr p.ratio_weight f4, hs4]
    exact updScalar_cond_after rwAttr _ _ (fun v mm => rfl)
  have c5 : condSess p.session_state s7.m = false := by
    rw [condSess_congr p.session_state f5, hs5]
    exact updSession_cond_after _ _
  have c6 : condMon p.monitor_state s7.m = false := by
    rw [condMon_congr p.monitor_state f6, hs6]
    exact updMonitor_cond_after _ _
  have c7 : condScalar pgAttr p.priority_group s7.m = false := by
    rw [hs7]
    exact updScalar_cond_after pgAttr _ _ (fun v mm => rfl)
  simp [condAll, c1, c2, c3, c4, c5, c6, c7]

/-- In dry-run the update path never touches the member state. -/
theorem updateBranch_m_check (p : Params) (m : MemberState)
    (hck : p.check_mode = true) :
    (updateBranch p m).m = m := by
  rw [updateBranch_eq, hck, updScalar_m_check, updMonitor_m_check,
      updSession_m_check, updScalar_m_check, updScalar_m_check,
      updScalar_m_check, updScalar_m_check]

/-- In dry-run the update path issues read calls only. -/
theorem updateBranch_calls_check (p : Params) (m : MemberState)
    (hck : p.check_mode = true) :
    ∀ c ∈ (updateBranch p m).calls, isWrite c = false := by
  rw [updateBranch_eq, hck]
  intro c hc
  rcases updScalar_calls_check pgAttr p.priority_group _ c hc with h | rfl
  · rcases updMonitor_calls_check _ _ c h with h | rfl
    · rcases updSession_calls_check _ _ c h with h | rfl
      · rcases updScalar_calls_check rwAttr _ _ c h with h | rfl
        · rcases updScalar_calls_check rlAttr _ _ c h with h | rfl
          · rcases updScalar_calls_check descAttr _ _ c h with h | rfl
            · rcases updScalar_calls_check clAttr _ _ c h with h | rfl
              · simp at h
              · rfl
            · rfl
          · rfl
        · rfl
      · rfl
    · rfl
  · rfl

/-- On the update path (no dry-run), the session set-call for the supplied
intent is issued exactly when the read-and-compare of src lines 503-512 deems
the intent violated against the member state at entry. -/
theorem updateBranch_mem_sess (p : Params) (m : MemberState) (ss : String)
    (ho : p.session_state = some ss) (hck : p.check_mode = false) :
    (ApiCall.setSessionEnabledState (stateToken ss) ∈ (updateBranch p m).calls) ↔
      condSess (some ss) m = true := by
  rw [updateBranch_eq, hck, ho]
  set s1 := updScalar clAttr p.connection_limit false ⟨[], m, false⟩ with hs1
  set s2 := updScalar descAttr p.description false s1 with hs2
  set s3 := updScalar rlAttr p.rate_limit false s2 with hs3
  set s4 := updScalar rwAttr p.ratio_weight false s3 with hs4
  have h0 : ∀ t, ApiCall.setSessionEnabledState t ∉ s4.calls := by
    intro t ht
    rw [hs4, updScalar_mem rwAttr _ _ _ _ (by simp [rwAttr]) (fun v => by simp [rwAttr]),
        hs3, updScalar_mem rlAttr _ _ _ _ (by simp [rlAttr]) (fun v => by simp [rlAttr]),
        hs2, updScalar_mem descAttr _ _ _ _ (by simp [descAttr]) (fun v => by simp [descAttr]),
        hs1, updScalar_mem clAttr _ _ _ _ (by simp [clAttr]) (fun v => by simp [clAttr])] at ht
    simp at ht
  have hsr : s4.m.session_status_raw = m.session_status_raw := by
    rw [hs4, updScalar_m_keep rwAttr _ _ _ (fun mm => mm.session_status_raw)
          (fun v mm => rfl),
        hs3, updScalar_m_keep rlAttr _ _ _ (fun mm => mm.session_status_raw)
          (fun v mm => rfl),
        hs2, updScalar_m_keep descAttr _ _ _ (fun mm => mm.session_status_raw)
          (fun v mm => rfl),
        hs1, updScalar_m_keep clAttr _ _ _ (fun mm => mm.session_status_raw)
          (fun v mm => rfl)]
  rw [updScalar_mem pgAttr _ _ _ _ (by simp [pgAttr]) (fun v => by simp [pgAttr]),
      updMonitor_mem _ _ _ _ (by simp) (fun t => by simp),
      updSession_set_mem ss s4 h0, condSess_congr (some ss) hsr]

/-- On the update path (no dry-run), the monitor set-call for the supplied
intent is issued exactly when the read-and-compare of src lines 513-522 deems
the intent violated against the member state at entry. -/
theorem updateBranch_mem_mon (p : Params) (m : MemberState) (ms : String)
    (ho : p.monitor_state = some ms) (hck : p.check_mode = false) :
    (ApiCall.setMonitorState (stateToken ms) ∈ (updateBranch p m).calls) ↔
      condMon (some ms) m = true := by
  rw [updateBranch_eq, hck, ho]
  set s1 := updScalar clAttr p.connection_limit false ⟨[], m, false⟩ with hs1
  set s2 := updScalar descAttr p.description false s1 with hs2
  set s3 := updScalar rlAttr p.rate_limit false s2 with hs3
  set s4 := updScalar rwAttr p.ratio_weight false s3 with hs4
  set s5 := updSession p.session_state false s4 with hs5
  have h0 : ∀ t, ApiCall.setMonitorState t ∉ s5.calls := by
    intro t ht
    rw [hs5, updSession_mem _ _ _ _ (by simp) (fun u => by simp),
        hs4, updScalar_mem rwAttr _ _ _ _ (by simp [rwAttr]) (fun v => by simp [rwAttr]),
        hs3, updScalar_mem rlAttr _ _ _ _ (by simp [rlAttr]) (fun v => by simp [rlAttr]),
        hs2, updScalar_mem descAttr _ _ _ _ (by simp [descAttr]) (fun v => by simp [descAttr]),
        hs1, updScalar_mem clAttr _ _ _ _ (by simp [clAttr]) (fun v => by simp [clAttr])] at ht
    simp at ht
  have hmr : s5.m.monitor_status_raw = m.monitor_status_raw := by
    rw [hs5, updSession_m_keep _ _ _ (fun mm => mm.monitor_status_raw)
          (fun ss mm => rfl),
        hs4, updScalar_m_keep rwAttr _ _ _ (fun mm => mm.monitor_status_raw)
          (fun v mm => rfl),
        hs3, updScalar_m_keep rlAttr _ _ _ (fun mm => mm.monitor_status_raw)
          (fun v mm => rfl),
        hs2, updScalar_m_keep descAttr _ _ _ (fun mm => mm.monitor_status_raw)
          (fun v mm => rfl),
        hs1, updScalar_m_keep clAttr _ _ _ (fun mm => mm.monitor_status_raw)
          (fun v mm => rfl)]
  rw [updScalar_mem pgAttr _ _ _ _ (by simp [pgAttr]) (fun v => by simp [pgAttr]),
      updMonitor_set_mem ms s5 h0, condMon_congr (some ms) hmr]

/-! ## The creation path -/

theorem optWrite_keep {α β : Type} (o : Option α)
    (w : α → MemberState → MemberState) (mm : MemberState)
    (proj : MemberState → β) (hw : ∀ v x, proj (w v x) = proj x) :
    proj (optWrite o w mm) = proj mm := by
  rcases o with _ | v <;> simp [optWrite, hw]

theorem optWrite_cond_scalar {α : Type} [DecidableEq α] (a : ScalarAttr α)
    (o : Option α) (mm : MemberState)
    (hrw : ∀ v x, a.read (a.write v x) = v) :
    condScalar a o (optWrite o a.write mm) = false := by
  rcases o with _ | v
  · rfl
  · simp [optWrite, condScalar, hrw]

theorem optWrite_cond_sess (o : Option String) (mm : MemberState) :
    condSess o (optWrite o sessionWrite mm) = false := by
  rcases o with _ | ss
  · rfl
  · exact condSess_after_set ss mm

theorem optWrite_cond_mon (o : Option String) (mm : MemberState) :
    condMon o (optWrite o monitorWrite mm) = false := by
  rcases o with _ | ms
  · rfl
  · exact condMon_after_set ms mm

theorem creationMember_eq (p : Params) :
    creationMember p =
      optWrite p.priority_group pgAttr.write
        (optWrite p.monitor_state monitorWrite
          (optWrite p.session_state sessionWrite
            (optWrite p.ratio_weight rwAttr.write
              (optWrite p.rate_limit rlAttr.write
                (optWrite p.description descAttr.write
                  (optWrite p.connection_limit clAttr.write
                    defaultMember)))))) := rfl

/-- After the unconditional writes of the creation path (durable-client
semantics), no supplied attribute is deemed out of sync. -/
theorem creationMember_conds (p : Params) :
    condAll p (creationMember p) = false := by
  rw [creationMember_eq]
  set m1 := optWrite p.connection_limit clAttr.write defaultMember with hm1
  set m2 := optWrite p.description descAttr.write m1 with hm2
  set m3 := optWrite p.rate_limit rlAttr.write m2 with hm3
  set m4 := optWrite p.ratio_weight rwAttr.write m3 with hm4
  set m5 := optWrite p.session_state sessionWrite m4 with hm5
  set m6 := optWrite p.monitor_state monitorWrite m5 with hm6
  set m7 := optWrite p.priority_group pgAttr.write m6 with hm7
  have f1 : clAttr.read m7 = clAttr.read m1 := by
    rw [hm7, optWrite_keep p.priority_group pgAttr.write m6 clAttr.read (fun v x => rfl),
        hm6, optWrite_keep p.monitor_state monitorWrite m5 clAttr.read (fun v x => rfl),
        hm5, optWrite_keep p.session_state sessionWrite m4 clAttr.read (fun v x => rfl),
        hm4, optWrite_keep p.ratio_weight rwAttr.write m3 clAttr.read (fun v x => rfl),
        hm3, optWrite_keep p.rate_limit rlAttr.write m2 clAttr.read (fun v x => rfl),
        hm2, optWrite_keep p.description descAttr.write m1 clAttr.read (fun v x => rfl)]
  have f2 : descAttr.read m7 = descAttr.read m2 := by
    rw [hm7, optWrite_keep p.priority_group pgAttr.write m6 descAttr.read (fun v x => rfl),
        hm6, optWrite_keep p.monitor_state monitorWrite m5 descAttr.read (fun v x => rfl),
        hm5, optWrite_keep p.session_state sessionWrite m4 descAttr.read (fun v x => rfl),
        hm4, optWrite_keep p.ratio_weight rwAttr.write m3 descAttr.read (fun v x => rfl),
        hm3, optWrite_keep p.rate_limit rlAttr.write m2 descAttr.read (fun v x => rfl)]
  have f3 : rlAttr.read m7 = rlAttr.read m3 := by
    rw [hm7, optWrite_keep p.priority_group pgAttr.write m6 rlAttr.read (fun v x => rfl),
        hm6, optWrite_keep p.monitor_state monitorWrite m5 rlAttr.read (fun v x => rfl),
        hm5, optWrite_keep p.session_state sessionWrite m4 rlAttr.read (fun v x => rfl),
        hm4, optWrite_keep p.ratio_weight rwAttr.write m3 rlAttr.read (fun v x => rfl)]
  have f4 : rwAttr.read m7 = rwAttr.read m4 := by
    rw [hm7, optWrite_keep p.priority_group pgAttr.write m6 rwAttr.read (fun v x => rfl),
        hm6, optWrite_keep p.monitor_state monitorWrite m5 rwAttr.read (fun v x => rfl),
        hm5, optWrite_keep p.session_state sessionWrite m4 rwAttr.read (fun v x => rfl)]
  have f5 : m7.session_status_raw = m5.session_status_raw := by
    rw [hm7, optWrite_keep p.priority_group pgAttr.write m6
          (fun mm => mm.session_status_raw) (fun v x => rfl),
        hm6, optWrite_keep p.monitor_state monitorWrite m5
          (fun mm => mm.session_status_raw) (fun v x => rfl)]
  have f6 : m7.monitor_status_raw = m6.monitor_status_raw := by
    rw [hm7, optWrite_keep p.priority_group pgAttr.write m6
          (fun mm => mm.monitor_status_raw) (fun v x => rfl)]
  have c1 : condScalar clAttr p.connection_limit m7 = false := by
    rw [condScalar_congr clAttr p.connection_limit f1, hm1]
    exact optWrite_cond_scalar clAttr _ _ (fun v x => rfl)
  have c2 : condScalar descAttr p.description m7 = false := by
    rw [condScalar_congr descAttr p.description f2, hm2]
    exact optWrite_cond_scalar descAttr _ _ (fun v x => rfl)
  have c3 : condScalar rlAttr p.rate_limit m7 = false := by
    rw [condScalar_congr rlAttr p.rate_limit f3, hm3]
    exact optWrite_cond_scalar rlAttr _ _ (fun v x => rfl)
  have c4 : condScalar rwAttr p.ratio_weight m7 = false := by
    rw [condScalar_congr rwAttr p.ratio_weight f4, hm4]
    exact optWrite_cond_scalar rwAttr _ _ (fun v x => rfl)
  have c5 : condSess p.session_state m7 = false := by
    rw [condSess_congr p.session_state f5, hm5]
    exact optWrite_cond_sess _ _
  have c6 : condMon p.monitor_state m7 = false := by
    rw [condMon_congr p.monitor_state f6, hm6]
    exact optWrite_cond_mon _ _
  have c7 : condScalar pgAttr p.priority_group m7 = false := by
    rw [hm7]
    exact optWrite_cond_scalar pgAttr _ _ (fun v x => rfl)
  simp [condAll, c1, c2, c3, c4, c5, c6, c7]

/-! ## Unfolding `mainRun` -/

theorem paramsValid_elim (p : Params) (h : paramsValid p = true) :
    hostPortMissing p = false ∧ portInvalid p = false := by
  simp [paramsValid] at h
  exact h

theorem mainRun_valid (p : Params) (d : Device) (h : paramsValid p = true)
    (hp : d.poolPresent = true) :
    mainRun p d = mainAfterPool p d := by
  obtain ⟨h1, h2⟩ := paramsValid_elim p h
  simp [mainRun, h1, h2, hp]

theorem mainRun_noPool (p : Params) (d : Device) (h : paramsValid p = true)
    (hp : d.poolPresent = false) :
    mainRun p d = ⟨.failJson (poolMissingMsg p.pool), [ApiCall.getPoolStatus], d⟩ := by
  obtain ⟨h1, h2⟩ := paramsValid_elim p h
  simp [mainRun, h1, h2, hp]

/-! ## Helper iff lemmas for the composite-state conditions -/

theorem condSess_enabled_iff (m : MemberState) :
    condSess (some enabledStr) m = true ↔
      sessionStatusOf m = forcedDisabledStr := by
  have hne : ¬(enabledStr = disabledStr) := by decide
  simp [condSess, hne]

theorem condSess_disabled_iff (m : MemberState) :
    condSess (some disabledStr) m = true ↔
      sessionStatusOf m ≠ forcedDisabledStr := by
  have hne : ¬(disabledStr = enabledStr) := by decide
  simp [condSess, hne]

theorem condMon_enabled_iff (m : MemberState) :
    condMon (some enabledStr) m = true ↔
      monitorStatusOf m = forcedDownStr := by
  have hne : ¬(enabledStr = disabledStr) := by decide
  simp [condMon, hne]

theorem condMon_disabled_iff (m : MemberState) :
    condMon (some disabledStr) m = true ↔
      monitorStatusOf m ≠ forcedDownStr := by
  have hne : ¬(disabledStr = enabledStr) := by decide
  simp [condMon, hne]

theorem condAll_of_sess (p : Params) (m : MemberState) (ss : String)
    (ho : p.session_state = some ss) (h : condSess (some ss) m = true) :
    condAll p m = true := by
  simp [condAll, ho, h]

theorem condAll_of_mon (p : Params) (m : MemberState) (ms : String)
    (ho : p.monitor_state = some ms) (h : condMon (some ms) m = true) :
    condAll p m = true := by
  simp [condAll, ho, h]

/-! ## Claim C6 -/

/-- C6: `pool_exists` and `member_exists` return false when the status query
fails with a "not found"-flavoured operation failure, return true when the
query succeeds, and propagate any other operation failure unchanged; a "not
found" probe outcome is never itself surfaced as a failure. -/
theorem claim6_existence_probe_classification :
    (pool_exists (ApiResult.ok ()) = .ok true ∧
     member_exists (ApiResult.ok ()) = .ok true) ∧
    (∀ msg, strContains msg notFoundPat = true →
      pool_exists (ApiResult.opFailed msg) = .ok false ∧
      member_exists (ApiResult.opFailed msg) = .ok false) ∧
    (∀ msg, strContains msg notFoundPat = false →
      pool_exists (ApiResult.opFailed msg) = .error msg ∧
      member_exists (ApiResult.opFailed msg) = .error msg) := by
  refine ⟨⟨rfl, rfl⟩, fun msg h => ⟨?_, ?_⟩, fun msg h => ⟨?_, ?_⟩⟩ <;>
    simp [pool_exists, member_exists, h]

/-- Witness for C6 at concrete probe outcomes. -/
theorem claim6_existence_probe_classification_witness :
    (pool_exists (ApiResult.opFailed probeFailMsg) = .ok false ∧
      member_exists (ApiResult.opFailed probeFailMsg) = .ok false) ∧
    (pool_exists (ApiResult.opFailed otherFailMsg) = .error otherFailMsg ∧
      member_exists (ApiResult.opFailed otherFailMsg) = .error otherFailMsg) :=
  ⟨claim6_existence_probe_classification.2.1 probeFailMsg rfl,
   claim6_existence_probe_classification.2.2 otherFailMsg rfl⟩

/-! ## Claim C7 -/

/-- C7: when the pool-existence probe reports the pool absent, the run fails
fatally after exactly one pool-status probe call and before any member-level
call (the trace is exactly the single pool probe). -/
theorem claim7_missing_pool_fails_fast (p : Params) (d : Device)
    (hv : paramsValid p = true) (hpool : d.poolPresent = false) :
    (mainRun p d).calls = [ApiCall.getPoolStatus] ∧
    ∃ e, (mainRun p d).outcome = .failJson e := by
  rw [mainRun_noPool p d hv hpool]
  exact ⟨rfl, _, rfl⟩

/-- Witness for C7: baseline parameters against a device without the pool. -/
theorem claim7_missing_pool_fails_fast_witness :
    (mainRun paramsBase devNoPool).calls = [ApiCall.getPoolStatus] ∧
    ∃ e, (mainRun paramsBase devNoPool).outcome = .failJson e :=
  claim7_missing_pool_fails_fast paramsBase devNoPool rfl rfl

/-! ## Claim C8 -/

/-- C8: with state=absent and the member not present, the result is
changed=false and the only remote calls are the two existence probes (so no
mutation call is issued). -/
theorem claim8_absent_noop (p : Params) (d : Device)
    (hv : paramsValid p = true) (hpool : d.poolPresent = true)
    (hst : p.state = absentStr) (hm : d.member = none) :
    (mainRun p d).outcome = .exitJson false none ∧
    (mainRun p d).calls = [ApiCall.getPoolStatus, ApiCall.getMemberStatus] := by
  rw [mainRun_valid p d hv hpool]
  constructor <;> simp [mainAfterPool, hst, hm, absentStr]

/-- Witness for C8: absent target against a pool with no such member. -/
theorem claim8_absent_noop_witness :
    (mainRun { paramsBase with state := absentStr } devEmpty).outcome =
      .exitJson false none ∧
    (mainRun { paramsBase with state := absentStr } devEmpty).calls =
      [ApiCall.getPoolStatus, ApiCall.getMemberStatus] :=
  claim8_absent_noop { paramsBase with state := absentStr } devEmpty
    rfl rfl rfl rfl

/-! ## Claim C4 -/

/-- C4: state=absent, member exists, preserveNode=false, no dry-run: a node
deletion blocked by the "still referenced by another pool member" condition
yields changed=true, deleted=false without aborting; any other node-deletion
operation failure aborts fatally; a successful deletion yields changed=true,
deleted=true. -/
theorem claim4_node_delete_error_handling (p : Params) (d : Device)
    (m : MemberState) (hv : paramsValid p = true) (hpool : d.poolPresent = true)
    (hst : p.state = absentStr) (hm : d.member = some m)
    (hpn : p.preserve_node = false) (hck : p.check_mode = false) :
    (d.nodeDelete = ApiResult.ok () →
      (mainRun p d).outcome = .exitJson true (some true)) ∧
    (∀ msg, d.nodeDelete = ApiResult.opFailed msg →
      strContains msg stillRefPat = true →
      (mainRun p d).outcome = .exitJson true (some false)) ∧
    (∀ msg, d.nodeDelete = ApiResult.opFailed msg →
      strContains msg stillRefPat = false →
      (mainRun p d).outcome = .failJson (receivedExcPre ++ msg)) := by
  rw [mainRun_valid p d hv hpool]
  refine ⟨fun hnd => ?_, fun msg hnd hsc => ?_, fun msg hnd hsc => ?_⟩
  · simp [mainAfterPool, hst, hm, hpn, hck, hnd, delete_node_address]
  · simp [mainAfterPool, hst, hm, hpn, hck, hnd, delete_node_address, hsc]
  · simp [mainAfterPool, hst, hm, hpn, hck, hnd, delete_node_address, hsc]

/-- Witness for C4: the still-referenced case at a concrete device. -/
theorem claim4_node_delete_error_handling_witness :
    (mainRun { paramsBase with state := absentStr } devMemStillRef).outcome =
      .exitJson true (some false) :=
  (claim4_node_delete_error_handling { paramsBase with state := absentStr }
      devMemStillRef memPlain rfl rfl rfl rfl rfl rfl).2.1
    stillRefMsgW rfl rfl

/-! ## Claim C5 -/

/-- C5: state=present, member absent, no dry-run: the trace is exactly the
two probes, one create, then one set-call per supplied attribute in the fixed
order connectionLimit, description, rateLimit, ratio, admissionState,
monitorState, priorityGroup (see `creationSetCalls`), with no read of those
attributes; the result is changed=true. -/
theorem claim5_creation_call_sequence (p : Params) (d : Device)
    (hv : paramsValid p = true) (hpool : d.poolPresent = true)
    (hst : p.state = presentStr) (hm : d.member = none)
    (hck : p.check_mode = false) :
    (mainRun p d).calls =
      [ApiCall.getPoolStatus, ApiCall.getMemberStatus, ApiCall.addMember] ++
        creationSetCalls p ∧
    (mainRun p d).outcome = .exitJson true none := by
  rw [mainRun_valid p d hv hpool]
  constructor <;> simp [mainAfterPool, hst, hm, hck, presentStr, absentStr]

/-- Witness for C5 at concrete parameters supplying two attributes. -/
theorem claim5_creation_call_sequence_witness :
    (mainRun paramsCreate devEmpty).calls =
      [ApiCall.getPoolStatus, ApiCall.getMemberStatus, ApiCall.addMember] ++
        creationSetCalls paramsCreate ∧
    (mainRun paramsCreate devEmpty).outcome = .exitJson true none :=
  claim5_creation_call_sequence paramsCreate devEmpty rfl rfl rfl rfl rfl

/-! ## Claim C10 -/

/-- C10: a `deleted` field appears in the result record only when
state=absent, the member existed, preserveNode=false and the run is not in
dry-run mode (in particular dry-run never emits `deleted`). -/
theorem claim10_deleted_field_scope (p : Params) (d : Device) (chg : Bool)
    (del : Bool) (h : (mainRun p d).outcome = .exitJson chg (some del)) :
    p.state = absentStr ∧ d.member ≠ none ∧ p.preserve_node = false ∧
      p.check_mode = false := by
  cases hhp : hostPortMissing p with
  | true => simp [mainRun, hhp] at h
  | false =>
  cases hpi : portInvalid p with
  | true => simp [mainRun, hhp, hpi] at h
  | false =>
  cases hpp : d.poolPresent with
  | false => simp [mainRun, hhp, hpi, hpp] at h
  | true =>
  have hv : paramsValid p = true := by simp [paramsValid, hhp, hpi]
  rw [mainRun_valid p d hv hpp] at h
  by_cases hst : p.state = absentStr
  · rcases hm : d.member with _ | m
    · simp [mainAfterPool, hst, hm] at h
    · cases hck : p.check_mode with
      | true => simp [mainAfterPool, hst, hm, hck] at h
      | false =>
        cases hpn : p.preserve_node with
        | true => simp [mainAfterPool, hst, hm, hck, hpn] at h
        | false => exact ⟨hst, by simp [hm], rfl, rfl⟩
  · by_cases hst2 : p.state = presentStr
    · rcases hm : d.member with _ | m
      · cases hck : p.check_mode with
        | true => simp [mainAfterPool, hst, hst2, hm, hck, presentStr, absentStr] at h
        | false => simp [mainAfterPool, hst, hst2, hm, hck, presentStr, absentStr] at h
      · simp [mainAfterPool, hst, hst2, hm, presentStr, absentStr] at h
    · simp [mainAfterPool, hst, hst2] at h

/-- Witness for C10: a real absent-run that does emit `deleted`. -/
theorem claim10_deleted_field_scope_witness :
    ({ paramsBase with state := absentStr } : Params).state = absentStr ∧
      devMemPlain.member ≠ none ∧
      ({ paramsBase with state := absentStr } : Params).preserve_node = false ∧
      ({ paramsBase with state := absentStr } : Params).check_mode = false :=
  claim10_deleted_field_scope { paramsBase with state := absentStr }
    devMemPlain true true rfl

/-! ## Claim C9 -/

/-- Every branch of the post-pool logic opens its trace with the pool probe. -/
theorem mainAfterPool_calls_head (p : Params) (d : Device) :
    ∃ rest, (mainAfterPool p d).calls = ApiCall.getPoolStatus :: rest := by
  unfold mainAfterPool
  rcases hm : d.member with _ | m <;>
    rcases hd : delete_node_address d.nodeDelete with b | e <;>
      split_ifs <;> exact ⟨_, rfl⟩

/-- C9: a port outside 0..65535, or host without port, or port without host,
fails validation before any remote call; ports 0 and 65535 pass validation
(the run reaches the pool probe). -/
theorem claim9_port_host_validation (p : Params) (d : Device) :
    (∀ v, p.port = some v → (v < 0 ∨ 65535 < v) →
      (mainRun p d).calls = [] ∧
      ((mainRun p d).outcome = .failJson hostPortMsg ∨
       (mainRun p d).outcome = .failJson portRangeMsg)) ∧
    (p.host ≠ "" → p.port = none →
      (mainRun p d).outcome = .failJson hostPortMsg ∧
      (mainRun p d).calls = []) ∧
    (p.host = "" → p.port ≠ none →
      (mainRun p d).outcome = .failJson hostPortMsg ∧
      (mainRun p d).calls = []) ∧
    (p.host ≠ "" → (p.port = some 0 ∨ p.port = some 65535) →
      ∃ rest, (mainRun p d).calls = ApiCall.getPoolStatus :: rest) := by
  refine ⟨fun v hp hr => ?_, fun hh hp => ?_, fun hh hp => ?_, fun hh hp => ?_⟩
  · cases hhp : hostPortMissing p with
    | true =>
      exact ⟨by simp [mainRun, hhp], Or.inl (by simp [mainRun, hhp])⟩
    | false =>
      have hpi : portInvalid p = true := by
        simp [portInvalid, hp]
        omega
      exact ⟨by simp [mainRun, hhp, hpi], Or.inr (by simp [mainRun, hhp, hpi])⟩
  · have hhp : hostPortMissing p = true := by simp [hostPortMissing, hh, hp]
    exact ⟨by simp [mainRun, hhp], by simp [mainRun, hhp]⟩
  · have hhp : hostPortMissing p = true := by simp [hostPortMissing, hh, hp]
    exact ⟨by simp [mainRun, hhp], by simp [mainRun, hhp]⟩
  · have hhp : hostPortMissing p = false := by
      rcases hp with h | h <;> simp [hostPortMissing, hh, h]
    have hpi : portInvalid p = false := by
      rcases hp with h | h <;> simp [portInvalid, h]
    cases hpp : d.poolPresent with
    | false => exact ⟨[], by simp [mainRun, hhp, hpi, hpp]⟩
    | true =>
      rcases mainAfterPool_calls_head p d with ⟨rest, hrest⟩
      exact ⟨rest, by simp [mainRun, hhp, hpi, hpp, hrest]⟩

/-- Witness for C9: port 70000 fails with no remote call; port 65535 passes
validation and reaches the pool probe. -/
theorem claim9_port_host_validation_witness :
    ((mainRun { paramsBase with port := some 70000 } devEmpty).calls = [] ∧
      ((mainRun { paramsBase with port := some 70000 } devEmpty).outcome =
          .failJson hostPortMsg ∨
       (mainRun { paramsBase with port := some 70000 } devEmpty).outcome =
          .failJson portRangeMsg)) ∧
    (∃ rest, (mainRun { paramsBase with port := some 65535 } devEmpty).calls =
      ApiCall.getPoolStatus :: rest) :=
  ⟨(claim9_port_host_validation { paramsBase with port := some 70000 }
      devEmpty).1 70000 rfl (by decide),
   (claim9_port_host_validation { paramsBase with port := some 65535 }
      devEmpty).2.2.2 (by decide) (Or.inr rfl)⟩

/-! ## Claim C1 -/

theorem mem_probes_append (c : ApiCall) (l : List ApiCall)
    (h1 : c ≠ ApiCall.getPoolStatus) (h2 : c ≠ ApiCall.getMemberStatus) :
    (c ∈ [ApiCall.getPoolStatus, ApiCall.getMemberStatus] ++ l) ↔ c ∈ l := by
  simp [h1, h2]

/-- C1: state=present, member exists, no dry-run.  With admissionState
supplied, intent `enabled` issues the session set-call (and reports
changed=true) exactly when the live session status is the sentinel
`forced_disabled`; intent `disabled` issues it exactly when the live status
is anything else.  The same asymmetry holds for monitorState against
`forced_down`. -/
theorem claim1_forced_sentinel_asymmetry (p : Params) (d : Device)
    (m : MemberState) (hv : paramsValid p = true) (hpool : d.poolPresent = true)
    (hst : p.state = presentStr) (hm : d.member = some m)
    (hck : p.check_mode = false) :
    (∀ ss, p.session_state = some ss →
      (ss = enabledStr →
        (((ApiCall.setSessionEnabledState (stateToken ss) ∈
              (mainRun p d).calls) ↔
            sessionStatusOf m = forcedDisabledStr) ∧
         (sessionStatusOf m = forcedDisabledStr →
            (mainRun p d).outcome = .exitJson true none))) ∧
      (ss = disabledStr →
        (((ApiCall.setSessionEnabledState (stateToken ss) ∈
              (mainRun p d).calls) ↔
            sessionStatusOf m ≠ forcedDisabledStr) ∧
         (sessionStatusOf m ≠ forcedDisabledStr →
            (mainRun p d).outcome = .exitJson true none)))) ∧
    (∀ ms, p.monitor_state = some ms →
      (ms = enabledStr →
        (((ApiCall.setMonitorState (stateToken ms) ∈ (mainRun p d).calls) ↔
            monitorStatusOf m = forcedDownStr) ∧
         (monitorStatusOf m = forcedDownStr →
            (mainRun p d).outcome = .exitJson true none))) ∧
      (ms = disabledStr →
        (((ApiCall.setMonitorState (stateToken ms) ∈ (mainRun p d).calls) ↔
            monitorStatusOf m ≠ forcedDownStr) ∧
         (monitorStatusOf m ≠ forcedDownStr →
            (mainRun p d).outcome = .exitJson true none)))) := by
  rw [mainRun_valid p d hv hpool]
  have hcalls : (mainAfterPool p d).calls =
      [ApiCall.getPoolStatus, ApiCall.getMemberStatus] ++
        (updateBranch p m).calls := by
    simp [mainAfterPool, hst, hm, presentStr, absentStr]
  have houtc : (mainAfterPool p d).outcome =
      .exitJson (updateBranch p m).changed none := by
    simp [mainAfterPool, hst, hm, presentStr, absentStr]
  refine ⟨fun ss ho => ⟨fun hss => ?_, fun hss => ?_⟩,
          fun ms ho => ⟨fun hss => ?_, fun hss => ?_⟩⟩
  · subst hss
    constructor
    · rw [hcalls, mem_probes_append _ _ (by simp) (by simp),
         updateBranch_mem_sess p m enabledStr ho hck, condSess_enabled_iff]
    · intro hfd
      rw [houtc, updateBranch_changed,
        condAll_of_sess p m enabledStr ho ((condSess_enabled_iff m).mpr hfd)]
  · subst hss
    constructor
    · rw [hcalls, mem_probes_append _ _ (by simp) (by simp),
         updateBranch_mem_sess p m disabledStr ho hck, condSess_disabled_iff]
    · intro hfd
      rw [houtc, updateBranch_changed,
        condAll_of_sess p m disabledStr ho ((condSess_disabled_iff m).mpr hfd)]
  · subst hss
    constructor
    · rw [hcalls, mem_probes_append _ _ (by simp) (by simp),
         updateBranch_mem_mon p m enabledStr ho hck, condMon_enabled_iff]
    · intro hfd
      rw [houtc, updateBranch_changed,
        condAll_of_mon p m enabledStr ho ((condMon_enabled_iff m).mpr hfd)]
  · subst hss
    constructor
    · rw [hcalls, mem_probes_append _ _ (by simp) (by simp),
         updateBranch_mem_mon p m disabledStr ho hck, condMon_disabled_iff]
    · intro hfd
      rw [houtc, updateBranch_changed,
        condAll_of_mon p m disabledStr ho ((condMon_disabled_iff m).mpr hfd)]

/-- Witness for C1: intent enabled against a member in the forced state:
the session set-call is issued and changed is reported. -/
theorem claim1_forced_sentinel_asymmetry_witness :
    (ApiCall.setSessionEnabledState (stateToken enabledStr) ∈
      (mainRun paramsStates devMemForced).calls) ∧
    (mainRun paramsStates devMemForced).outcome = .exitJson true none := by
  have h := claim1_forced_sentinel_asymmetry paramsStates devMemForced
    memForced rfl rfl rfl rfl rfl
  have h1 := (h.1 enabledStr rfl).1 rfl
  exact ⟨h1.1.mpr rfl, h1.2 rfl⟩

/-! ## Claim C3 -/

theorem hostPortMissing_check (p : Params) (b : Bool) :
    hostPortMissing { p with check_mode := b } = hostPortMissing p := rfl

theorem portInvalid_check (p : Params) (b : Bool) :
    portInvalid { p with check_mode := b } = portInvalid p := rfl

theorem condAll_check (p : Params) (b : Bool) (m : MemberState) :
    condAll { p with check_mode := b } m = condAll p m := rfl

theorem params_check_state (p : Params) (b : Bool) :
    ({ p with check_mode := b } : Params).state = p.state := rfl

theorem params_check_preserve (p : Params) (b : Bool) :
    ({ p with check_mode := b } : Params).preserve_node = p.preserve_node := rfl

theorem params_check_mode (p : Params) (b : Bool) :
    ({ p with check_mode := b } : Params).check_mode = b := rfl

/-- Reads-only membership in the two-probe trace. -/
theorem isWrite_false_of_mem_probes (c : ApiCall)
    (hc : c ∈ [ApiCall.getPoolStatus, ApiCall.getMemberStatus]) :
    isWrite c = false := by
  rcases List.mem_cons.mp hc with rfl | hc
  · rfl
  · rcases List.mem_cons.mp hc with rfl | hc
    · rfl
    · exact absurd hc (List.not_mem_nil c)

/-- In dry-run the post-pool logic issues read calls only. -/
theorem mainAfterPool_check_nowrites (p : Params) (d : Device) :
    ∀ c ∈ (mainAfterPool { p with check_mode := true } d).calls,
      isWrite c = false := by
  intro c hc
  by_cases hst : p.state = absentStr
  · rcases hm : d.member with _ | m
    · have hcalls : (mainAfterPool { p with check_mode := true } d).calls =
          [ApiCall.getPoolStatus, ApiCall.getMemberStatus] := by
        simp [mainAfterPool, params_check_state, hst, hm]
      rw [hcalls] at hc
      exact isWrite_false_of_mem_probes c hc
    · have hcalls : (mainAfterPool { p with check_mode := true } d).calls =
          [ApiCall.getPoolStatus, ApiCall.getMemberStatus] := by
        simp [mainAfterPool, params_check_state, params_check_mode, hst, hm]
      rw [hcalls] at hc
      exact isWrite_false_of_mem_probes c hc
  · by_cases hst2 : p.state = presentStr
    · rcases hm : d.member with _ | m
      · have hcalls : (mainAfterPool { p with check_mode := true } d).calls =
            [ApiCall.getPoolStatus, ApiCall.getMemberStatus] := by
          simp [mainAfterPool, params_check_state, params_check_mode,
            hst, hst2, hm, presentStr, absentStr]
        rw [hcalls] at hc
        exact isWrite_false_of_mem_probes c hc
      · have hcalls : (mainAfterPool { p with check_mode := true } d).calls =
            [ApiCall.getPoolStatus, ApiCall.getMemberStatus] ++
              (updateBranch { p with check_mode := true } m).calls := by
          simp [mainAfterPool, params_check_state, params_check_mode,
            hst, hst2, hm, presentStr, absentStr]
        rw [hcalls] at hc
        rcases List.mem_append.mp hc with hc | hc
        · exact isWrite_false_of_mem_probes c hc
        · exact updateBranch_calls_check _ m rfl c hc
    · have hcalls : (mainAfterPool { p with check_mode := true } d).calls =
          [ApiCall.getPoolStatus] := by
        simp [mainAfterPool, params_check_state, hst, hst2]
      rw [hcalls] at hc
      rcases List.mem_cons.mp hc with rfl | hc
      · rfl
      · exact absurd hc (List.not_mem_nil c)

/-- A dry-run of the post-pool logic reports the same `changed` flag as the
real run of the same scenario, whenever the real run exits normally. -/
theorem mainAfterPool_changed_eq (p : Params) (d : Device) :
    ∀ chg del,
      (mainAfterPool { p with check_mode := false } d).outcome =
        .exitJson chg del →
      ∃ del2, (mainAfterPool { p with check_mode := true } d).outcome =
        .exitJson chg del2 := by
  intro chg del h
  by_cases hst : p.state = absentStr
  · rcases hm : d.member with _ | m
    · have hC : (mainAfterPool { p with check_mode := true } d).outcome =
          .exitJson false none := by
        simp [mainAfterPool, params_check_state, hst, hm]
      have hR : (mainAfterPool { p with check_mode := false } d).outcome =
          .exitJson false none := by
        simp [mainAfterPool, params_check_state, hst, hm]
      rw [hR] at h
      rw [hC]
      injection h with h1 h2
      subst h1
      exact ⟨none, rfl⟩
    · have hC : (mainAfterPool { p with check_mode := true } d).outcome =
          .exitJson true none := by
        simp [mainAfterPool, params_check_state, params_check_mode, hst, hm]
      rw [hC]
      cases hpn : p.preserve_node with
      | true =>
        have hR : (mainAfterPool { p with check_mode := false } d).outcome =
            .exitJson true none := by
          simp [mainAfterPool, params_check_state, params_check_mode,
            params_check_preserve, hst, hm, hpn]
        rw [hR] at h
        injection h with h1 h2
        subst h1
        exact ⟨none, rfl⟩
      | false =>
        rcases hd : delete_node_address d.nodeDelete with e | b
        · have hR : (mainAfterPool { p with check_mode := false } d).outcome =
              .failJson (receivedExcPre ++ e) := by
            simp [mainAfterPool, params_check_state, params_check_mode,
              params_check_preserve, hst, hm, hpn, hd]
          rw [hR] at h
          simp at h
        · have hR : (mainAfterPool { p with check_mode := false } d).outcome =
              .exitJson true (some b) := by
            simp [mainAfterPool, params_check_state, params_check_mode,
              params_check_preserve, hst, hm, hpn, hd]
          rw [hR] at h
          injection h with h1 h2
          subst h1
          exact ⟨none, rfl⟩
  · by_cases hst2 : p.state = presentStr
    · rcases hm : d.member with _ | m
      · have hC : (mainAfterPool { p with check_mode := true } d).outcome =
            .exitJson true none := by
          simp [mainAfterPool, params_check_state, params_check_mode,
            hst, hst2, hm, presentStr, absentStr]
        have hR : (mainAfterPool { p with check_mode := false } d).outcome =
            .exitJson true none := by
          simp [mainAfterPool, params_check_state, params_check_mode,
            hst, hst2, hm, presentStr, absentStr]
        rw [hR] at h
        rw [hC]
        injection h with h1 h2
        subst h1
        exact ⟨none, rfl⟩
      · have hC : (mainAfterPool { p with check_mode := true } d).outcome =
            .exitJson (updateBranch { p with check_mode := true } m).changed
              none := by
          simp [mainAfterPool, params_check_state, hst, hst2, hm,
            presentStr, absentStr]
        have hR : (mainAfterPool { p with check_mode := false } d).outcome =
            .exitJson (updateBranch { p with check_mode := false } m).changed
              none := by
          simp [mainAfterPool, params_check_state, hst, hst2, hm,
            presentStr, absentStr]
        rw [hR] at h
        rw [hC]
        injection h with h1 h2
        refine ⟨none, ?_⟩
        have e1 : (updateBranch { p with check_mode := true } m).changed =
            (updateBranch { p with check_mode := false } m).changed := by
          rw [updateBranch_changed, updateBranch_changed,
            condAll_check p true m, condAll_check p false m]
        rw [e1, h1]
    · have hC : (mainAfterPool { p with check_mode := true } d).outcome =
          .exitJson false none := by
        simp [mainAfterPool, params_check_state, hst, hst2]
      have hR : (mainAfterPool { p with check_mode := false } d).outcome =
          .exitJson false none := by
        simp [mainAfterPool, params_check_state, hst, hst2]
      rw [hR] at h
      rw [hC]
      injection h with h1 h2
      subst h1
      exact ⟨none, rfl⟩

/-- C3: a dry-run issues zero write calls, and reports the same `changed`
value as the real execution of the same scenario (whenever the real execution
exits with a result record). -/
theorem claim3_dry_run_no_writes_same_changed (p : Params) (d : Device) :
    (∀ c ∈ (mainRun { p with check_mode := true } d).calls,
      isWrite c = false) ∧
    (∀ chg del,
      (mainRun { p with check_mode := false } d).outcome = .exitJson chg del →
      ∃ del2, (mainRun { p with check_mode := true } d).outcome =
        .exitJson chg del2) := by
  cases hhp : hostPortMissing p with
  | true =>
    constructor
    · intro c hc
      have hcalls : (mainRun { p with check_mode := true } d).calls = [] := by
        simp [mainRun, hostPortMissing_check, hhp]
      rw [hcalls] at hc
      exact absurd hc (List.not_mem_nil c)
    · intro chg del h
      have hout : (mainRun { p with check_mode := false } d).outcome =
          .failJson hostPortMsg := by
        simp [mainRun, hostPortMissing_check, hhp]
      rw [hout] at h
      simp at h
  | false =>
  cases hpi : portInvalid p with
  | true =>
    constructor
    · intro c hc
      have hcalls : (mainRun { p with check_mode := true } d).calls = [] := by
        simp [mainRun, hostPortMissing_check, hhp, portInvalid_check, hpi]
      rw [hcalls] at hc
      exact absurd hc (List.not_mem_nil c)
    · intro chg del h
      have hout : (mainRun { p with check_mode := false } d).outcome =
          .failJson portRangeMsg := by
        simp [mainRun, hostPortMissing_check, hhp, portInvalid_check, hpi]
      rw [hout] at h
      simp at h
  | false =>
  cases hpp : d.poolPresent with
  | false =>
    constructor
    · intro c hc
      have hcalls : (mainRun { p with check_mode := true } d).calls =
          [ApiCall.getPoolStatus] := by
        simp [mainRun, hostPortMissing_check, hhp, portInvalid_check, hpi, hpp]
      rw [hcalls] at hc
      rcases List.mem_cons.mp hc with rfl | hc
      · rfl
      · exact absurd hc (List.not_mem_nil c)
    · intro chg del h
      have hout : (mainRun { p with check_mode := false } d).outcome =
          .failJson (poolMissingMsg p.pool) := by
        simp [mainRun, hostPortMissing_check, hhp, portInvalid_check, hpi, hpp]
      rw [hout] at h
      simp at h
  | true =>
  have hvC : paramsValid { p with check_mode := true } = true := by
    simp [paramsValid, hostPortMissing_check, portInvalid_check, hhp, hpi]
  have hvR : paramsValid { p with check_mode := false } = true := by
    simp [paramsValid, hostPortMissing_check, portInvalid_check, hhp, hpi]
  constructor
  · intro c hc
    rw [mainRun_valid _ d hvC hpp] at hc
    exact mainAfterPool_check_nowrites p d c hc
  · intro chg del h
    rw [mainRun_valid _ d hvR hpp] at h
    rw [mainRun_valid _ d hvC hpp]
    exact mainAfterPool_changed_eq p d chg del h

/-- Witness for C3: a dry-run of the creation scenario issues no writes and
reports the changed=true the real run reports. -/
theorem claim3_dry_run_no_writes_same_changed_witness :
    (∀ c ∈ (mainRun { paramsCreate with check_mode := true } devEmpty).calls,
      isWrite c = false) ∧
    (∃ del2, (mainRun { paramsCreate with check_mode := true }
        devEmpty).outcome = .exitJson true del2) :=
  ⟨(claim3_dry_run_no_writes_same_changed paramsCreate devEmpty).1,
   (claim3_dry_run_no_writes_same_changed paramsCreate devEmpty).2 true none rfl⟩

/-! ## Claim C2 -/

/-- C2: against the durable Remote Resource Client (writes stick; writing a
disabled session/monitor state makes the status read back as the forced
sentinel), a second reconciliation run with identical input reports
changed=false.  `check_mode = false` states that the first run is a real
convergence run, as the idempotence law of the spec assumes. -/
theorem claim2_second_run_idempotent (p : Params) (d : Device)
    (hv : paramsValid p = true) (hpool : d.poolPresent = true)
    (hck : p.check_mode = false) :
    (mainRun p (mainRun p d).dev).outcome = .exitJson false none := by
  rw [mainRun_valid p d hv hpool]
  by_cases hst : p.state = absentStr
  · rcases hm : d.member with _ | m
    · have hdev : (mainAfterPool p d).dev = d := by
        simp [mainAfterPool, hst, hm]
      rw [hdev, mainRun_valid p d hv hpool]
      simp [mainAfterPool, hst, hm]
    · have hdev : (mainAfterPool p d).dev = { d with member := none } := by
        cases hpn : p.preserve_node with
        | true => simp [mainAfterPool, hst, hm, hck, hpn]
        | false =>
          rcases hd : delete_node_address d.nodeDelete with b | e <;>
            simp [mainAfterPool, hst, hm, hck, hpn, hd]
      rw [hdev, mainRun_valid p _ hv (by simp [hpool])]
      simp [mainAfterPool, hst]
  · by_cases hst2 : p.state = presentStr
    · rcases hm : d.member with _ | m
      · have hdev : (mainAfterPool p d).dev =
            { d with member := some (creationMember p) } := by
          simp [mainAfterPool, hst, hst2, hm, hck, presentStr, absentStr]
        rw [hdev, mainRun_valid p _ hv (by simp [hpool])]
        have hout : (mainAfterPool p
            { d with member := some (creationMember p) }).outcome =
            .exitJson (updateBranch p (creationMember p)).changed none := by
          simp [mainAfterPool, hst, hst2, presentStr, absentStr]
        rw [hout, updateBranch_changed, creationMember_conds]
      · have hdev : (mainAfterPool p d).dev =
            { d with member := some ((updateBranch p m).m) } := by
          simp [mainAfterPool, hst, hst2, hm, presentStr, absentStr]
        rw [hdev, mainRun_valid p _ hv (by simp [hpool])]
        have hout : (mainAfterPool p
            { d with member := some ((updateBranch p m).m) }).outcome =
            .exitJson (updateBranch p ((updateBranch p m).m)).changed none := by
          simp [mainAfterPool, hst, hst2, presentStr, absentStr]
        rw [hout, updateBranch_changed, updateBranch_cond_after p m hck]
    · have hdev : (mainAfterPool p d).dev = d := by
        simp [mainAfterPool, hst, hst2]
      rw [hdev, mainRun_valid p d hv hpool]
      simp [mainAfterPool, hst, hst2]

/-- Witness for C2: a creation run followed by a second identical run. -/
theorem claim2_second_run_idempotent_witness :
    (mainRun paramsCreate (mainRun paramsCreate devEmpty).dev).outcome =
      .exitJson false none :=
  claim2_second_run_idempotent paramsCreate devEmpty rfl rfl rfl

end BigIpPoolMember
